import Mathlib

/-!
Verification of the turnflow backend's usage-quota engine, spam classifier,
webhook handler and DM dispatch pipeline, as a shallow embedding of the
Python source (apps/billing, apps/integrations) into Lean.

Conventions of the embedding:
* Python `int` is modelled as `Int` (unbounded, as in Python).
* Python dicts used as static tables are association lists (`List (k × v)`)
  with `List.lookup`, mirroring `dict.get(key, default)`.
* A Python function that can raise is `Except e a`; a function that mutates
  a row and can raise is `Except e Unit × State` (the second component is
  the state after the call, unchanged when the exception is raised).
* `getattr(counter, metric)` for the two valid metric attributes is a total
  function over an enumerated `Metric` type.
-/

namespace Turnflow

/-! ### apps/billing/models.py — PlanLimits -/

namespace PlanLimits

/-- `PlanLimits.LIMITS` from apps/billing/models.py: the static
plan → metric → limit table.  `-1` denotes unlimited. -/
def LIMITS : List (String × List (String × Int)) :=
  [ ("starter",
      [ ("comments_collected_per_month", 1000),
        ("dm_sent_per_month", 100),
        ("workspaces", 1),
        ("team_members", 3),
        ("automations", 5) ]),
    ("pro",
      [ ("comments_collected_per_month", 10000),
        ("dm_sent_per_month", 1000),
        ("workspaces", 5),
        ("team_members", 10),
        ("automations", 50) ]),
    ("enterprise",
      [ ("comments_collected_per_month", -1),
        ("dm_sent_per_month", -1),
        ("workspaces", -1),
        ("team_members", -1),
        ("automations", -1) ]) ]

/-- `PlanLimits.get_limit`: `LIMITS.get(plan, LIMITS[STARTER]).get(metric, 0)`.
An unknown plan falls back to the starter table, an unknown metric to `0`. -/
def get_limit (plan metric : String) : Int :=
  (((LIMITS.lookup plan).getD ((LIMITS.lookup "starter").getD [])).lookup
    metric).getD 0

/-- `PlanLimits.is_unlimited`. -/
def is_unlimited (plan metric : String) : Bool :=
  get_limit plan metric == -1

/-- `PlanLimits.get_all_limits`: `LIMITS.get(plan, LIMITS[STARTER])`. -/
def get_all_limits (plan : String) : List (String × Int) :=
  (LIMITS.lookup plan).getD ((LIMITS.lookup "starter").getD [])

end PlanLimits

/-! ### apps/billing/models.py — UsageCounter -/

/-- The two usage-metric attributes a `UsageCounter` row carries
(`comments_collected`, `dm_sent`); `UsageCounter.increment` rejects every
other metric name with `ValueError`, and the quota claims quantify over
exactly these two. -/
inductive Metric
  | comments_collected
  | dm_sent
  deriving DecidableEq, Repr

/-- The Python attribute name of the metric (used for `getattr`/`setattr`
and for building the `"<metric>_per_month"` plan-limit key). -/
def Metric.name : Metric → String
  | .comments_collected => "comments_collected"
  | .dm_sent => "dm_sent"

/-- One `usage_counters` row for a fixed (workspace, year, month): just the
two metric columns the quota logic touches. -/
structure UsageCounter where
  comments_collected : Int
  dm_sent : Int
  deriving DecidableEq, Repr

/-- `getattr(self, metric)` for a valid metric attribute. -/
def UsageCounter.get (c : UsageCounter) : Metric → Int
  | .comments_collected => c.comments_collected
  | .dm_sent => c.dm_sent

/-- `setattr(self, metric, v)` for a valid metric attribute. -/
def UsageCounter.set (c : UsageCounter) : Metric → Int → UsageCounter
  | .comments_collected, v => { c with comments_collected := v }
  | .dm_sent, v => { c with dm_sent := v }

/-- `UsageCounter.increment`: read the attribute, add `amount`, save. -/
def UsageCounter.increment (c : UsageCounter) (metric : Metric)
    (amount : Int) : UsageCounter :=
  c.set metric (c.get metric + amount)

/-- The comparison at the heart of `UsageCounter.check_limit`:
`-1` means unlimited (always within limit), otherwise within limit iff
`current_value + amount <= limit`. -/
def limitCheck (limit current amount : Int) : Bool :=
  if limit == -1 then true
  else decide (current + amount ≤ limit)

/-- `UsageCounter.check_limit`: look up
`PlanLimits.get_limit(plan, f"{metric}_per_month")` and compare. -/
def UsageCounter.check_limit (plan : String) (c : UsageCounter)
    (metric : Metric) (amount : Int) : Bool :=
  limitCheck (PlanLimits.get_limit plan (metric.name ++ "_per_month"))
    (c.get metric) amount

/-- `UsageCounter.get_remaining`: `-1` for unlimited, else
`max 0 (limit - current)`. -/
def UsageCounter.get_remaining (plan : String) (c : UsageCounter)
    (metric : Metric) : Int :=
  let limit := PlanLimits.get_limit plan (metric.name ++ "_per_month")
  if limit == -1 then -1
  else max 0 (limit - c.get metric)

/-! ### apps/core/exceptions.py — PlanLimitExceededError -/

/-- The payload of `PlanLimitExceededError(metric, limit, current, plan)`. -/
structure PlanLimitExceededError where
  metric : String
  limit : Int
  current : Int
  plan : String
  deriving DecidableEq, Repr

/-! ### apps/billing/utils.py — UsageTracker -/

namespace UsageTracker

/-- `UsageTracker.check_and_increment` on the current-period row `c` of a
workspace on plan `plan`.  Returns the call's outcome (`.ok ()` for the
Python `return True`, `.error` for the raised `PlanLimitExceededError`)
together with the counter row after the call. -/
def check_and_increment (plan : String) (c : UsageCounter) (metric : Metric)
    (amount : Int) : Except PlanLimitExceededError Unit × UsageCounter :=
  if ¬ c.check_limit plan metric amount then
    (.error
      { metric := metric.name
        limit := PlanLimits.get_limit plan (metric.name ++ "_per_month")
        current := c.get metric
        plan := plan }, c)
  else
    (.ok (), c.increment metric amount)

/-- `UsageTracker.check_limit`: pure read, delegates to
`UsageCounter.check_limit` on the current-period row. -/
def check_limit (plan : String) (c : UsageCounter) (metric : Metric)
    (amount : Int) : Bool :=
  c.check_limit plan metric amount

end UsageTracker

/-! ### apps/integrations/services.py — SpamDetectionService

The classifier works on Python `str`; we embed texts as `String` and work
on their character lists.  `str.lower()` is modelled by `Char.toLower`
(ASCII case mapping), which agrees with Python on the ASCII + Hangul
alphabets the configuration and scenarios use.  The two `re.search` calls
are embedded as explicit existence-of-a-match scans with the same pattern
semantics (a search succeeds iff a match exists at some position). -/

namespace SpamDetectionService

/-- `DEFAULT_SPAM_KEYWORDS` from services.py. -/
def DEFAULT_SPAM_KEYWORDS : List String :=
  ["아이돌", "주소창", "사건", "원본영상", "실시간검색"]

/-- Python `needle in hay` substring test on character lists
(the empty needle matches everywhere, as in Python). -/
def containsSub (needle : List Char) : List Char → Bool
  | [] => needle.isEmpty
  | c :: rest => needle.isPrefixOf (c :: rest) || containsSub needle rest

/-- A regex word character (`\w`) over the alphabets in play:
ASCII letters/digits, underscore, and Hangul syllables (Python's
Unicode-aware `\w` classes Hangul syllables as word characters). -/
def isWordChar (c : Char) : Bool :=
  c.isAlphanum || c == '_' || (0xAC00 ≤ c.toNat && c.toNat ≤ 0xD7A3)

/-- Word-character test with `none` standing for the edge of the string
(which `\b` treats as a non-word position). -/
def isWordOpt : Option Char → Bool
  | none => false
  | some c => isWordChar c

/-- A character of the domain-label class `[a-zA-Z0-9-]`. -/
def isLabelChar (c : Char) : Bool :=
  c.isAlphanum || c == '-'

/-- The TLD alternatives of the domain pattern
`\b[a-zA-Z0-9-]+\.(com|net|org|co\.kr|asia|io|app|xyz|info|biz)\b`. -/
def TLDS : List String :=
  ["com", "net", "org", "co.kr", "asia", "io", "app", "xyz", "info", "biz"]

/-- After the literal `.`: some TLD alternative is a prefix of the rest and
the trailing `\b` holds (the following character is absent or non-word;
every alternative ends in a letter, a word character). -/
def tldAfterDot (t : List Char) : Bool :=
  TLDS.any fun tld =>
    tld.data.isPrefixOf t && ! isWordOpt (t.drop tld.length).head?

/-- Continuation of a domain match after at least one label character:
either the `.`+TLD part starts here, or one more `[a-zA-Z0-9-]` character
is consumed. -/
def domainTail : List Char → Bool
  | [] => false
  | c :: rest =>
      (c == '.' && tldAfterDot rest) || (isLabelChar c && domainTail rest)

/-- A domain match starts at this position: leading `\b` between the
previous character and the first label character, then `[a-zA-Z0-9-]+` then
`.` then a TLD with its trailing `\b`. -/
def domainAt (prev : Option Char) : List Char → Bool
  | [] => false
  | c :: rest =>
      isLabelChar c && (isWordOpt prev != isWordChar c) && domainTail rest

/-- `re.search` of the domain pattern: a match exists at some position. -/
def scanDomain (prev : Option Char) : List Char → Bool
  | [] => false
  | c :: rest => domainAt prev (c :: rest) || scanDomain (some c) rest

/-- A match of `https?://[^\s]+` starts at this position: the literal
scheme followed by at least one non-whitespace character. -/
def httpAt (t : List Char) : Bool :=
  ("http://".data.isPrefixOf t &&
      (match (t.drop 7).head? with
        | some d => ! d.isWhitespace
        | none => false)) ||
  ("https://".data.isPrefixOf t &&
      (match (t.drop 8).head? with
        | some d => ! d.isWhitespace
        | none => false))

/-- `re.search` of the URL pattern: a match exists at some position. -/
def scanHttp : List Char → Bool
  | [] => false
  | c :: rest => httpAt (c :: rest) || scanHttp rest

/-- `str.lower()` on the character list (`Char.toLower` is the ASCII case
mapping, the identity on Hangul, matching Python on these alphabets). -/
def lower (cs : List Char) : List Char :=
  cs.map Char.toLower

/-- `SpamDetectionService._contains_url`: HTTP(S) URL pattern first, then
the bare-domain pattern. -/
def contains_url (text : List Char) : Bool :=
  scanHttp text || scanDomain none text

/-- `SpamDetectionService.is_spam`.  `None` text is modelled as `""`
(both are falsy in `if not text`); a `None` keyword list is modelled as
`[]` (both are falsy in `spam_keywords if spam_keywords else DEFAULT`). -/
def is_spam (text : String) (spam_keywords : List String)
    (check_urls : Bool) : Bool × List String :=
  if text == "" then (false, [])
  else
    let text_lower := lower text.data
    let urlReasons :=
      if check_urls && contains_url text_lower then ["contains_url"] else []
    let keywords_to_check :=
      if spam_keywords.isEmpty then DEFAULT_SPAM_KEYWORDS else spam_keywords
    let kwReasons :=
      (keywords_to_check.filter fun k =>
          containsSub (lower k.data) text_lower).map
        fun k => "keyword:" ++ k
    let reasons := urlReasons ++ kwReasons
    (decide (0 < reasons.length), reasons)

end SpamDetectionService

/-! ### apps/integrations/views.py — instagram_webhook (GET branch) -/

/-- The GET branch of `instagram_webhook`: compare `hub.mode` with
`"subscribe"` and `hub.verify_token` with the configured
`settings.INSTAGRAM_WEBHOOK_VERIFY_TOKEN` (a deployment secret, passed in
as `verify_token`); on success return `HttpResponse(challenge)` (status
200; Django renders an absent challenge, Python `None`, as the body
`"None"`), otherwise `HttpResponse("Forbidden", status=403)`.  The result
is the (status, body) pair. -/
def instagram_webhook_get (verify_token : String)
    (mode token challenge : Option String) : Nat × String :=
  if mode == some "subscribe" && token == some verify_token then
    (200, match challenge with
          | some c => c
          | none => "None")
  else
    (403, "Forbidden")

/-! ### apps/integrations/models.py — AutoDMCampaign, SentDMLog

The dispatch engine's database state is the list of `sent_dm_logs` rows
(only the columns the dispatch logic reads or writes).  Timestamps are
minutes as `Int`.  The `unique_campaign_comment` constraint on
(campaign, comment_id) makes an `objects.create` for an existing pair
raise `IntegrityError`. -/

namespace Dispatch

/-- `SentDMLog.Status`. -/
inductive LogStatus
  | pending
  | sent
  | failed
  | skipped
  deriving DecidableEq, Repr

/-- `AutoDMCampaign.Status`. -/
inductive CampaignStatus
  | active
  | paused
  | completed
  | inactive
  deriving DecidableEq, Repr

/-- `IGAccountConnection.Status`. -/
inductive ConnStatus
  | active
  | expired
  | revoked
  | error
  deriving DecidableEq, Repr

/-- The string value of a connection status (used in the "connection is
not active" error message). -/
def ConnStatus.str : ConnStatus → String
  | .active => "active"
  | .expired => "expired"
  | .revoked => "revoked"
  | .error => "error"

/-- One `sent_dm_logs` row: the columns the dispatch logic touches. -/
structure LogRow where
  campaign : Nat
  comment_id : String
  status : LogStatus
  error_message : String
  created_at : Int
  deriving DecidableEq, Repr

/-- An `AutoDMCampaign` row together with its connection's status
(`campaign.ig_connection.status`). -/
structure Campaign where
  id : Nat
  media_id : String
  message_template : String
  status : CampaignStatus
  max_sends_per_hour : Int
  total_sent : Int
  total_failed : Int
  conn_status : ConnStatus
  deriving DecidableEq, Repr

/-- The rows `self.dm_logs.filter(created_at__gte=now - 1 hour)` — every
status counts, sliding (not calendar-aligned) window. -/
def recentLogs (now : Int) (db : List LogRow) (c : Campaign) : List LogRow :=
  db.filter fun r => r.campaign == c.id && decide (now - 60 ≤ r.created_at)

/-- `AutoDMCampaign.can_send_more`: active, and fewer rows in the trailing
60 minutes than `max_sends_per_hour`. -/
def Campaign.can_send_more (c : Campaign) (now : Int)
    (db : List LogRow) : Bool :=
  c.status == .active &&
    decide ((recentLogs now db c).length < c.max_sends_per_hour)

/-- `AutoDMCampaign.increment_sent`. -/
def Campaign.increment_sent (c : Campaign) : Campaign :=
  { c with total_sent := c.total_sent + 1 }

/-- `AutoDMCampaign.increment_failed`. -/
def Campaign.increment_failed (c : Campaign) : Campaign :=
  { c with total_failed := c.total_failed + 1 }

/-- Is there already a row for this (campaign, comment_id) pair? -/
def hasPair (db : List LogRow) (cid : Nat) (comment : String) : Bool :=
  db.any fun r => r.campaign == cid && r.comment_id == comment

/-- `SentDMLog.objects.create(...)` under the `unique_campaign_comment`
constraint: `none` models the raised `IntegrityError` when a row for the
pair already exists, otherwise the row is inserted. -/
def insertLog (db : List LogRow) (row : LogRow) : Option (List LogRow) :=
  if hasPair db row.campaign row.comment_id then none
  else some (db ++ [row])

/-- `mark_as_sent` / `mark_as_failed` on the row of the pair: update its
status and error message. -/
def setLogStatus (db : List LogRow) (cid : Nat) (comment : String)
    (st : LogStatus) (err : String) : List LogRow :=
  db.map fun r =>
    if r.campaign == cid && r.comment_id == comment then
      { r with status := st, error_message := err }
    else r

/-- The outcome of the messaging-gateway call
`InstagramMessagingService.send_dm_via_comment` (an external HTTP
collaborator): success, or an exception carrying the extracted error
message/code. -/
inductive GatewayOutcome
  | ok
  | apiError (msg code : String)
  deriving DecidableEq, Repr

/-- The dict returned by `_process_single_campaign`: its `"status"` value
and its `"reason"` value (`""` when the branch's dict has no reason key,
as in the `sent` branch). -/
structure CampaignResult where
  status : String
  reason : String
  deriving DecidableEq, Repr

/-- Everything `_process_single_campaign` produced: the returned dict, the
campaign row (its counters), the log table, and whether the messaging
gateway was contacted. -/
structure StepOut where
  result : CampaignResult
  campaign : Campaign
  db : List LogRow
  gateway_called : Bool
  deriving DecidableEq, Repr

/-- The generic `except Exception` handler at the end of
`_process_single_campaign` returns `{"status": "error", "reason": str(e)}`;
reached here when a log insert violates `unique_campaign_comment` (the
dedup pre-check at the top of the function is commented out in the
source). -/
def integrityError (c : Campaign) (db : List LogRow) : StepOut :=
  { result := { status := "error", reason := "IntegrityError: unique_campaign_comment" }
    campaign := c
    db := db
    gateway_called := false }

/-- `_process_single_campaign` from apps/integrations/tasks.py.  The
deduplication pre-check of step 1 is commented out in the source
("실험용으로 비활성화") and therefore absent here; step 2 is the
rate-limit check, step 3 creates the pending row, step 4 checks the
connection, steps 5–7 call the gateway and record the outcome.  `gw` is
the outcome the external gateway would return if called. -/
def process_single_campaign (now : Int) (c : Campaign) (comment_id : String)
    (gw : GatewayOutcome) (db : List LogRow) : StepOut :=
  if ¬ c.can_send_more now db then
    match insertLog db
        { campaign := c.id, comment_id := comment_id, status := .skipped,
          error_message := "Hourly send limit reached", created_at := now } with
    | none => integrityError c db
    | some db' =>
        { result := { status := "skipped", reason := "Hourly limit reached" }
          campaign := c
          db := db'
          gateway_called := false }
  else
    match insertLog db
        { campaign := c.id, comment_id := comment_id, status := .pending,
          error_message := "", created_at := now } with
    | none => integrityError c db
    | some db' =>
        if c.conn_status ≠ .active then
          let msg := "Instagram connection is not active: " ++ c.conn_status.str
          { result := { status := "failed", reason := msg }
            campaign := c.increment_failed
            db := setLogStatus db' c.id comment_id .failed msg
            gateway_called := false }
        else
          match gw with
          | .ok =>
              { result := { status := "sent", reason := "" }
                campaign := c.increment_sent
                db := setLogStatus db' c.id comment_id .sent ""
                gateway_called := true }
          | .apiError msg _code =>
              { result := { status := "failed", reason := msg }
                campaign := c.increment_failed
                db := setLogStatus db' c.id comment_id .failed msg
                gateway_called := true }

end Dispatch

/-! ### apps/integrations/tasks.py — process_comment_and_send_dm

The Celery task parses the webhook payload, runs the spam stage, and, when
the comment is not flagged, dispatches every active campaign for the
media.  The entire body of `_check_and_handle_spam` (account lookup,
filter lookup, classification, spam-log creation, hide call) sits inside
one `try`; its trailing `except Exception` returns
`{"is_spam": False, "spam_filter_processed": False, "error": str(e)}`.
We therefore model the stage body's outcome as a value: a normal return
carrying the computed `is_spam`, or a raised exception. -/

namespace Task

open Dispatch

/-- The `value` object of a `"comments"` webhook change, with the fields
the task extracts.  `text` is read with `value.get("text", "")`. -/
structure CommentValue where
  id : Option String
  text : String
  from_id : Option String
  from_username : Option String
  media_id : Option String
  deriving DecidableEq, Repr

/-- The payload handed to the task by the webhook view:
`{"field": ..., "value": ...}`. -/
structure WebhookPayload where
  field : Option String
  value : CommentValue
  deriving DecidableEq, Repr

/-- Python truthiness of an optional string, as used by
`all([comment_id, from_user_id, from_username, media_id])`:
absent (`None`) and `""` are falsy. -/
def truthy : Option String → Bool
  | none => false
  | some s => s != ""

/-- Outcome of the body of `_check_and_handle_spam` (the code inside its
`try`): a normal return with the computed spam verdict, or a raised
exception with its message. -/
inductive SpamStage
  | ok (is_spam : Bool)
  | exn (msg : String)
  deriving DecidableEq, Repr

/-- The `is_spam` entry of the dict `_check_and_handle_spam` returns: the
computed verdict on a normal return; `False` when the body raised, from
the `except Exception` fallback at tasks.py lines 223–225. -/
def spamStageVerdict : SpamStage → Bool
  | .ok b => b
  | .exn _ => false

/-- The dict returned by `process_comment_and_send_dm`, by case. -/
inductive TaskResult
  | skippedField (reason : String)
  | errorMissing
  | spamHandled (stage : SpamStage)
  | noCampaign
  | completed (results : List CampaignResult)
  deriving DecidableEq, Repr

/-- The per-campaign for-loop of the task: run `_process_single_campaign`
for each campaign in order, threading the log table and collecting the
result dicts.  `gw` gives the gateway outcome for each campaign's send
call. -/
def runCampaigns (now : Int) (comment_id : String)
    (gw : Campaign → GatewayOutcome) :
    List Campaign → List LogRow → List CampaignResult × List LogRow
  | [], db => ([], db)
  | c :: rest, db =>
      let out := process_single_campaign now c comment_id (gw c) db
      let next := runCampaigns now comment_id gw rest out.db
      (out.result :: next.1, next.2)

/-- `process_comment_and_send_dm`: field check, required-field check, spam
stage, then dispatch over the campaigns with matching `media_id` and
active status.  `campaigns` is the `AutoDMCampaign` table; `stage` is the
outcome of the spam-stage body (see `SpamStage`).  Returns the task's
result dict and the log table after the run. -/
def process_comment_and_send_dm (payload : WebhookPayload)
    (stage : SpamStage) (now : Int) (campaigns : List Campaign)
    (gw : Campaign → GatewayOutcome) (db : List LogRow) :
    TaskResult × List LogRow :=
  if payload.field != some "comments" then
    (.skippedField ("Unsupported field"), db)
  else if ¬ (truthy payload.value.id && truthy payload.value.from_id &&
      truthy payload.value.from_username && truthy payload.value.media_id) then
    (.errorMissing, db)
  else if spamStageVerdict stage then
    (.spamHandled stage, db)
  else
    let active := campaigns.filter fun c =>
      some c.media_id == payload.value.media_id && c.status == .active
    if active.isEmpty then
      (.noCampaign, db)
    else
      let run := runCampaigns now (payload.value.id.getD "") gw active db
      (.completed run.1, run.2)

end Task

/-! ### apps/billing — the unlocked check-and-increment under concurrency

`UsageTracker.check_and_increment` wraps its work in
`transaction.atomic()`, but `UsageCounter.get_current_period` reads the
row with a plain `get_or_create` (no `select_for_update`), and
`UsageCounter.increment` writes `current_value + amount` where
`current_value` was read into Python.  Under the database's default
read-committed isolation nothing orders the read of one call with the
write of another, so one call is two atomic database phases:

* phase 1 — read the row value (`get_or_create`) and evaluate
  `check_limit` against that snapshot;
* phase 2 — if the check passed, write `snapshot + amount`
  (`save(update_fields=[metric, ...])`); if it failed, raise (no write).

`Race` interleaves two such calls (amount 1 each) over one shared row. -/

namespace Race

/-- The two concurrent callers. -/
inductive Tid
  | a
  | b
  deriving DecidableEq, Repr

/-- Progress of one `check_and_increment(T, M, 1)` call. -/
inductive ThreadPC
  | start
  | checked (snapshot : Int) (passed : Bool)
  | done (succeeded : Bool)
  deriving DecidableEq, Repr

/-- The shared counter row and both callers' progress. -/
structure RaceState where
  row : Int
  ta : ThreadPC
  tb : ThreadPC
  deriving DecidableEq, Repr

/-- One atomic phase of one caller: the unlocked read+check (the check is
`UsageCounter.check_limit`'s comparison on the snapshot), then the write
of the value computed from its own snapshot. -/
def stepThread (limit : Int) (row : Int) : ThreadPC → ThreadPC × Int
  | .start => (.checked row (limitCheck limit row 1), row)
  | .checked s true => (.done true, s + 1)
  | .checked _ false => (.done false, row)
  | .done b => (.done b, row)

/-- Run one phase of the scheduled caller. -/
def step (limit : Int) (st : RaceState) : Tid → RaceState
  | .a =>
      let (pc, row) := stepThread limit st.row st.ta
      { st with ta := pc, row := row }
  | .b =>
      let (pc, row) := stepThread limit st.row st.tb
      { st with tb := pc, row := row }

/-- Run a schedule of phases from an initial row value. -/
def run (limit v0 : Int) (sched : List Tid) : RaceState :=
  sched.foldl (step limit) { row := v0, ta := .start, tb := .start }

/-- 1 if the call completed without raising `PlanLimitExceededError`. -/
def succ1 : ThreadPC → Nat
  | .done true => 1
  | _ => 0

/-- How many of the two calls returned success. -/
def successes (st : RaceState) : Nat :=
  succ1 st.ta + succ1 st.tb

end Race

/-! ### Concrete fixtures used by witnesses and counterexamples -/

/-- An active campaign with an active connection and the model's default
hourly cap (`max_sends_per_hour = 200`). -/
def exCampaign : Dispatch.Campaign :=
  { id := 1, media_id := "media-1", message_template := "hi",
    status := .active, max_sends_per_hour := 200,
    total_sent := 0, total_failed := 0, conn_status := .active }

/-- The same campaign capped at one send per hour (Scenario C's `K = 1`). -/
def exCampaignK1 : Dispatch.Campaign :=
  { exCampaign with max_sends_per_hour := 1 }

/-- A log row for a different comment of the same campaign, created 10
minutes before `now = 100` (inside the trailing 60-minute window). -/
def exRecentRow : Dispatch.LogRow :=
  { campaign := 1, comment_id := "other-comment", status := .sent,
    error_message := "", created_at := 90 }

/-- A well-formed `"comments"` webhook payload for `exCampaign`'s media. -/
def exPayload : Task.WebhookPayload :=
  { field := some "comments"
    value :=
      { id := some "cmt-1", text := "nice post",
        from_id := some "u-9", from_username := some "alice",
        media_id := some "media-1" } }

/-! ## Helper lemmas -/

/-- The task's per-campaign loop returns one result dict per campaign. -/
theorem runCampaigns_length (now : Int) (comment_id : String)
    (gw : Dispatch.Campaign → Dispatch.GatewayOutcome) :
    ∀ (cs : List Dispatch.Campaign) (db : List Dispatch.LogRow),
      (Task.runCampaigns now comment_id gw cs db).1.length = cs.length := by
  intro cs
  induction cs with
  | nil => intro db; rfl
  | cons c rest ih =>
      intro db
      simp [Task.runCampaigns, ih]

/-- The boolean `len(reasons) > 0` is the non-emptiness of the list. -/
theorem length_pos_flag (r : List String) :
    (decide (0 < r.length) = true) ↔ r ≠ [] := by
  cases r <;> simp

/-! ## Claim theorems -/

/-- C1: for every workspace plan, metric in {comments_collected, dm_sent}
and positive amount, `check_and_increment` increments the current-month
counter by exactly `amount` and succeeds iff
`current_value + amount <= limit` (or the plan's limit is `-1`); otherwise
it raises `PlanLimitExceededError{metric, limit, current, plan}` and
leaves the counter unchanged. -/
theorem quota_check_and_increment_spec (plan : String) (c : UsageCounter)
    (m : Metric) (amount : Int) (_hpos : 0 < amount) :
    ((PlanLimits.get_limit plan (m.name ++ "_per_month") = -1 ∨
        c.get m + amount ≤ PlanLimits.get_limit plan (m.name ++ "_per_month")) →
      UsageTracker.check_and_increment plan c m amount =
        (Except.ok (), c.set m (c.get m + amount)))
    ∧ (¬ (PlanLimits.get_limit plan (m.name ++ "_per_month") = -1 ∨
        c.get m + amount ≤ PlanLimits.get_limit plan (m.name ++ "_per_month")) →
      UsageTracker.check_and_increment plan c m amount =
        (Except.error
          { metric := m.name
            limit := PlanLimits.get_limit plan (m.name ++ "_per_month")
            current := c.get m
            plan := plan }, c)) := by
  constructor
  · intro h
    have hcl : c.check_limit plan m amount = true := by
      unfold UsageCounter.check_limit limitCheck
      rcases h with h | h
      · simp [h]
      · by_cases hl : PlanLimits.get_limit plan (m.name ++ "_per_month") = -1
        · simp [hl]
        · simp [hl, h]
    unfold UsageTracker.check_and_increment
    simp [hcl, UsageCounter.increment]
  · intro h
    push_neg at h
    obtain ⟨h1, h2⟩ := h
    have hcl : c.check_limit plan m amount = false := by
      unfold UsageCounter.check_limit limitCheck
      simp [h1]
      omega
    unfold UsageTracker.check_and_increment
    simp [hcl]

/-- C1 witness (Scenario A): a starter workspace with
`comments_collected = 999` and limit 1000 fails `check_and_increment(+2)`
with the structured error and still reads 999 afterwards. -/
theorem quota_check_and_increment_spec_witness :
    (0 : Int) < 2 ∧
    UsageTracker.check_and_increment "starter"
        { comments_collected := 999, dm_sent := 0 } .comments_collected 2 =
      (Except.error
        { metric := "comments_collected", limit := 1000, current := 999,
          plan := "starter" },
       { comments_collected := 999, dm_sent := 0 }) :=
  ⟨by decide,
    (quota_check_and_increment_spec "starter"
        { comments_collected := 999, dm_sent := 0 } .comments_collected 2
        (by decide)).2 (by decide)⟩

/-- C5: when the plan maps the metric to limit `-1` (unlimited),
`check_limit` returns true and `check_and_increment` succeeds regardless
of the current counter value or the amount; otherwise `check_limit`
returns true iff `current_value + amount <= limit`. -/
theorem unlimited_plan_spec (plan : String) (c : UsageCounter)
    (m : Metric) (amount : Int) :
    (PlanLimits.get_limit plan (m.name ++ "_per_month") = -1 →
      UsageTracker.check_limit plan c m amount = true ∧
      (UsageTracker.check_and_increment plan c m amount).1 = Except.ok ())
    ∧ (PlanLimits.get_limit plan (m.name ++ "_per_month") ≠ -1 →
      (UsageTracker.check_limit plan c m amount = true ↔
        c.get m + amount ≤ PlanLimits.get_limit plan (m.name ++ "_per_month"))) := by
  constructor
  · intro h
    have hcl : c.check_limit plan m amount = true := by
      unfold UsageCounter.check_limit limitCheck
      simp [h]
    refine ⟨hcl, ?_⟩
    unfold UsageTracker.check_and_increment
    simp [hcl]
  · intro h
    unfold UsageTracker.check_limit UsageCounter.check_limit limitCheck
    simp [h]

/-- C5 witness (P3): the enterprise plan's `dm_sent` limit is `-1`, so
`check_limit` and `check_and_increment` succeed at a huge current usage
and amount. -/
theorem unlimited_plan_spec_witness :
    PlanLimits.get_limit "enterprise" (Metric.dm_sent.name ++ "_per_month") = -1 ∧
    UsageTracker.check_limit "enterprise"
        { comments_collected := 0, dm_sent := 1000000000000 } .dm_sent 99999999 = true ∧
    (UsageTracker.check_and_increment "enterprise"
        { comments_collected := 0, dm_sent := 1000000000000 } .dm_sent 99999999).1 =
      Except.ok () :=
  ⟨by decide,
    (unlimited_plan_spec "enterprise"
        { comments_collected := 0, dm_sent := 1000000000000 } .dm_sent 99999999).1
      (by decide)⟩

/-- C9: `PlanLimits.get_limit` silently falls back to the starter table
for a plan string absent from `LIMITS`, and returns `0` (not `-1`) for a
metric key absent from the selected plan's table, so an unknown metric is
a zero quota: the limit comparison rejects every positive increment on a
non-negative counter instead of treating it as unlimited. -/
theorem plan_limits_fallback_spec (plan metric : String)
    (current amount : Int) :
    (PlanLimits.LIMITS.lookup plan = none →
      PlanLimits.get_limit plan metric = PlanLimits.get_limit "starter" metric)
    ∧ ((PlanLimits.get_all_limits plan).lookup metric = none →
      PlanLimits.get_limit plan metric = 0 ∧
      PlanLimits.is_unlimited plan metric = false)
    ∧ (0 ≤ current → 1 ≤ amount →
      limitCheck 0 current amount = false) := by
  refine ⟨?_, ?_, ?_⟩
  · intro h
    unfold PlanLimits.get_limit
    rw [h]
    rfl
  · intro h
    unfold PlanLimits.get_all_limits at h
    constructor
    · unfold PlanLimits.get_limit
      rw [h]
      rfl
    · unfold PlanLimits.is_unlimited PlanLimits.get_limit
      rw [h]
      rfl
  · intro h1 h2
    unfold limitCheck
    simp
    omega

/-- C9 witness: the unknown plan `"gold"` falls back to starter limits,
the unknown metric `"api_calls_per_month"` gets limit 0 (not unlimited),
and a zero limit rejects incrementing by 1 from 0. -/
theorem plan_limits_fallback_spec_witness :
    (PlanLimits.LIMITS.lookup "gold" = none ∧
      PlanLimits.get_limit "gold" "dm_sent_per_month" =
        PlanLimits.get_limit "starter" "dm_sent_per_month") ∧
    ((PlanLimits.get_all_limits "starter").lookup "api_calls_per_month" = none ∧
      PlanLimits.get_limit "starter" "api_calls_per_month" = 0 ∧
      PlanLimits.is_unlimited "starter" "api_calls_per_month" = false) ∧
    limitCheck 0 0 1 = false :=
  ⟨⟨by decide,
      (plan_limits_fallback_spec "gold" "dm_sent_per_month" 0 1).1 (by decide)⟩,
   ⟨by decide,
      (plan_limits_fallback_spec "starter" "api_calls_per_month" 0 1).2.1 (by decide)⟩,
   (plan_limits_fallback_spec "starter" "api_calls_per_month" 0 1).2.2
      (by decide) (by decide)⟩

/-- C2 (evaluated at the failing input): processing the same
(campaign, commentId) comment event a second time does NOT return
`skipped("already processed")` — the dedup pre-check is commented out in
`_process_single_campaign`, so the second run hits the
`unique_campaign_comment` constraint on the pending-log insert and the
generic exception handler returns status `"error"`.  The unique constraint
does keep the table at exactly one non-skip row for the pair. -/
theorem dedup_redelivery_returns_error :
    (Dispatch.process_single_campaign 100 exCampaign "cmt-1" .ok []).result.status
        = "sent"
    ∧ (Dispatch.process_single_campaign 101 exCampaign "cmt-1" .ok
        (Dispatch.process_single_campaign 100 exCampaign "cmt-1" .ok []).db).result.status
        = "error"
    ∧ (Dispatch.process_single_campaign 101 exCampaign "cmt-1" .ok
        (Dispatch.process_single_campaign 100 exCampaign "cmt-1" .ok []).db).result.status
        ≠ "skipped"
    ∧ (Dispatch.process_single_campaign 101 exCampaign "cmt-1" .ok
        (Dispatch.process_single_campaign 100 exCampaign "cmt-1" .ok []).db).gateway_called
        = false
    ∧ (Dispatch.process_single_campaign 101 exCampaign "cmt-1" .ok
        (Dispatch.process_single_campaign 100 exCampaign "cmt-1" .ok []).db).db
        = [{ campaign := 1, comment_id := "cmt-1", status := .sent,
             error_message := "", created_at := 100 }] := by
  decide

/-- C3 (evaluated at the failing interleaving): with limit 1000 and
current value 999, two concurrent `check_and_increment(+1)` calls whose
unlocked read phases both run before either write phase BOTH succeed
(2 ≠ min(2, limit − current) = 1), and the row ends at 1000 — one of the
two committed increments is lost.  A serialized schedule of the same two
calls yields exactly one success. -/
theorem quota_race_both_succeed :
    Race.successes (Race.run 1000 999 [.a, .b, .a, .b]) = 2
    ∧ min (2 : Int) (1000 - 999) = 1
    ∧ Race.successes (Race.run 1000 999 [.a, .b, .a, .b]) ≠ 1
    ∧ (Race.run 1000 999 [.a, .b, .a, .b]).row = 1000
    ∧ Race.successes (Race.run 1000 999 [.a, .a, .b, .b]) = 1 := by
  decide

/-- C4: a dispatch attempt for a fresh (campaign, commentId) pair made
while `max_sends_per_hour` or more log rows for the campaign (any status)
were created within the trailing 60 minutes produces exactly one skipped
log row ("Hourly send limit reached"), returns the
`skipped`/"Hourly limit reached" result, and never contacts the messaging
gateway — in particular it is never `sent`. -/
theorem rate_limit_skip_spec (now : Int) (c : Dispatch.Campaign)
    (comment_id : String) (gw : Dispatch.GatewayOutcome)
    (db : List Dispatch.LogRow)
    (hK : c.max_sends_per_hour ≤ ((Dispatch.recentLogs now db c).length : Int))
    (hfresh : Dispatch.hasPair db c.id comment_id = false) :
    Dispatch.process_single_campaign now c comment_id gw db =
      { result := { status := "skipped", reason := "Hourly limit reached" }
        campaign := c
        db := db ++ [{ campaign := c.id, comment_id := comment_id,
                       status := .skipped,
                       error_message := "Hourly send limit reached",
                       created_at := now }]
        gateway_called := false } := by
  have hcs : c.can_send_more now db = false := by
    unfold Dispatch.Campaign.can_send_more
    have : ¬ ((Dispatch.recentLogs now db c).length < c.max_sends_per_hour) := by
      omega
    simp [this]
  unfold Dispatch.process_single_campaign
  rw [hcs]
  simp [Dispatch.insertLog, hfresh]

/-- C4 witness (Scenario C shape): `max_sends_per_hour = 1`, one row
already created 10 minutes ago in the window, a fresh comment → the
attempt is skipped with "Hourly limit reached" and the gateway is not
called. -/
theorem rate_limit_skip_spec_witness :
    (exCampaignK1.max_sends_per_hour ≤
        ((Dispatch.recentLogs 100 [exRecentRow] exCampaignK1).length : Int)) ∧
    Dispatch.hasPair [exRecentRow] exCampaignK1.id "fresh-comment" = false ∧
    Dispatch.process_single_campaign 100 exCampaignK1 "fresh-comment" .ok
        [exRecentRow] =
      { result := { status := "skipped", reason := "Hourly limit reached" }
        campaign := exCampaignK1
        db := [exRecentRow] ++
          [{ campaign := exCampaignK1.id, comment_id := "fresh-comment",
             status := .skipped,
             error_message := "Hourly send limit reached",
             created_at := 100 }]
        gateway_called := false } :=
  ⟨by decide, by decide,
    rate_limit_skip_spec 100 exCampaignK1 "fresh-comment" .ok [exRecentRow]
      (by decide) (by decide)⟩

/-- C6: `is_spam` flags spam exactly when the reasons list is non-empty;
empty (or null) text always yields `(false, [])`; for non-empty text with
a non-empty configured keyword list the reasons are the URL reason (when
URL checking fires) followed by one `"keyword:<keyword>"` per
case-insensitively matching configured keyword, in configured order; and
Scenario B's Korean text with keywords `["아이돌","주소창"]` and URL
checking on is spam with `"contains_url"` and both keyword reasons. -/
theorem spam_classify_spec (text : String) (kws : List String) (cu : Bool) :
    ((SpamDetectionService.is_spam text kws cu).1 = true ↔
      (SpamDetectionService.is_spam text kws cu).2 ≠ [])
    ∧ (text = "" → SpamDetectionService.is_spam text kws cu = (false, []))
    ∧ (text ≠ "" → kws ≠ [] →
      (SpamDetectionService.is_spam text kws cu).2 =
        (if cu && SpamDetectionService.contains_url
            (SpamDetectionService.lower text.data)
          then ["contains_url"] else []) ++
        (kws.filter fun k =>
            SpamDetectionService.containsSub (SpamDetectionService.lower k.data)
              (SpamDetectionService.lower text.data)).map
          (fun k => "keyword:" ++ k))
    ∧ SpamDetectionService.is_spam "주소창 yako.asia 아이돌 사건"
        ["아이돌", "주소창"] true
        = (true, ["contains_url", "keyword:아이돌", "keyword:주소창"]) := by
  refine ⟨?_, ?_, ?_, ?_⟩
  · by_cases ht : text = ""
    · subst ht
      simp [SpamDetectionService.is_spam]
    · have hne : (text == "") = false := by
        simpa using ht
      simp only [SpamDetectionService.is_spam, hne, Bool.false_eq_true,
        if_false]
      exact length_pos_flag _
  · intro ht
    simp [SpamDetectionService.is_spam, ht]
  · intro ht hk
    have hk' : kws.isEmpty = false := by
      simpa [List.isEmpty_iff] using hk
    have hne : (text == "") = false := by
      simpa using ht
    simp [SpamDetectionService.is_spam, hne, hk']
  · decide

/-- C6 witness: the empty-text clause of the specification, discharged at
the empty string with a non-empty keyword configuration. -/
theorem spam_classify_spec_witness :
    SpamDetectionService.is_spam "" ["아이돌"] true = (false, []) :=
  (spam_classify_spec "" ["아이돌"] true).2.1 rfl

/-- C7: the GET webhook verification responds 200 with the raw
`hub.challenge` value as the body iff `hub.mode = "subscribe"` and
`hub.verify_token` equals the configured secret, and 403 ("Forbidden")
for every other combination of the query parameters. -/
theorem webhook_get_verification_spec (secret : String)
    (mode token challenge : Option String) :
    ((instagram_webhook_get secret mode token challenge).1 = 200 ↔
      (mode = some "subscribe" ∧ token = some secret))
    ∧ (∀ ch, mode = some "subscribe" → token = some secret →
        challenge = some ch →
        instagram_webhook_get secret mode token challenge = (200, ch))
    ∧ (¬ (mode = some "subscribe" ∧ token = some secret) →
        instagram_webhook_get secret mode token challenge = (403, "Forbidden")) := by
  by_cases hb : (mode == some "subscribe" && token == some secret) = true
  · have hm : mode = some "subscribe" ∧ token = some secret := by
      simpa using hb
    refine ⟨?_, ?_, ?_⟩
    · simp [instagram_webhook_get, hb, hm]
    · intro ch _ _ hch
      simp [instagram_webhook_get, hb, hch]
    · intro hcon
      exact absurd hm hcon
  · have hm : ¬ (mode = some "subscribe" ∧ token = some secret) := by
      intro hc
      exact hb (by simp [hc.1, hc.2])
    have hb' : (mode == some "subscribe" && token == some secret) = false := by
      simpa using hb
    refine ⟨?_, ?_, ?_⟩
    · simp [instagram_webhook_get, hb', hm]
    · intro ch h1 h2 _
      exact absurd ⟨h1, h2⟩ hm
    · intro _
      simp [instagram_webhook_get, hb']

/-- C7 witness: with secret `"sec"`, a subscribe request carrying the
right token gets its challenge echoed with status 200. -/
theorem webhook_get_verification_spec_witness :
    instagram_webhook_get "sec" (some "subscribe") (some "sec")
        (some "challenge-42") = (200, "challenge-42") :=
  (webhook_get_verification_spec "sec" (some "subscribe") (some "sec")
      (some "challenge-42")).2.1 "challenge-42" rfl rfl rfl

/-- C8: an empty (or absent) keyword list does not disable keyword
matching — `is_spam` then behaves exactly as with the built-in
`DEFAULT_SPAM_KEYWORDS`, so a text containing a default keyword is spam
even with no configured keywords. -/
theorem spam_default_keywords_fallback :
    (∀ (text : String) (cu : Bool),
      SpamDetectionService.is_spam text [] cu =
        SpamDetectionService.is_spam text
          SpamDetectionService.DEFAULT_SPAM_KEYWORDS cu)
    ∧ SpamDetectionService.is_spam "아이돌 최고" [] false =
        (true, ["keyword:아이돌"]) := by
  refine ⟨?_, ?_⟩
  · intro text cu
    rfl
  · decide

/-- C10: when the body of the spam stage raises any exception, the
handler's `except` fallback reports `is_spam = False`, so the task behaves
exactly as if the comment were cleanly classified as not spam, and for a
well-formed payload with matching active campaigns it proceeds to DM
dispatch with one result per matching active campaign. -/
theorem spam_stage_exception_proceeds (payload : Task.WebhookPayload)
    (e : String) (now : Int) (campaigns : List Dispatch.Campaign)
    (gw : Dispatch.Campaign → Dispatch.GatewayOutcome)
    (db : List Dispatch.LogRow) :
    Task.process_comment_and_send_dm payload (.exn e) now campaigns gw db =
      Task.process_comment_and_send_dm payload (.ok false) now campaigns gw db
    ∧ (payload.field = some "comments" →
      (Task.truthy payload.value.id && Task.truthy payload.value.from_id &&
        Task.truthy payload.value.from_username &&
        Task.truthy payload.value.media_id) = true →
      (campaigns.filter fun c =>
          some c.media_id == payload.value.media_id &&
            c.status == .active) ≠ [] →
      Task.process_comment_and_send_dm payload (.exn e) now campaigns gw db =
        (Task.TaskResult.completed
          (Task.runCampaigns now (payload.value.id.getD "") gw
            (campaigns.filter fun c =>
              some c.media_id == payload.value.media_id &&
                c.status == .active) db).1,
         (Task.runCampaigns now (payload.value.id.getD "") gw
            (campaigns.filter fun c =>
              some c.media_id == payload.value.media_id &&
                c.status == .active) db).2)
      ∧ (Task.runCampaigns now (payload.value.id.getD "") gw
            (campaigns.filter fun c =>
              some c.media_id == payload.value.media_id &&
                c.status == .active) db).1.length =
          (campaigns.filter fun c =>
            some c.media_id == payload.value.media_id &&
              c.status == .active).length) := by
  constructor
  · rfl
  · intro hf ha hne
    have hfe : (payload.field != some "comments") = false := by
      simp [hf]
    have hnemp : (campaigns.filter fun c =>
        some c.media_id == payload.value.media_id &&
          c.status == .active).isEmpty = false := by
      simpa [List.isEmpty_iff] using hne
    refine ⟨?_, runCampaigns_length now (payload.value.id.getD "") gw _ db⟩
    unfold Task.process_comment_and_send_dm
    simp [hfe, ha, Task.spamStageVerdict, hnemp]

/-- C10 witness: a well-formed comment payload whose spam stage raises
`"boom"` still dispatches the single matching active campaign. -/
theorem spam_stage_exception_proceeds_witness :
    Task.process_comment_and_send_dm exPayload (.exn "boom") 100 [exCampaign]
        (fun _ => Dispatch.GatewayOutcome.ok) [] =
      (Task.TaskResult.completed
        (Task.runCampaigns 100 (exPayload.value.id.getD "")
          (fun _ => Dispatch.GatewayOutcome.ok)
          ([exCampaign].filter fun c =>
            some c.media_id == exPayload.value.media_id &&
              c.status == .active) []).1,
       (Task.runCampaigns 100 (exPayload.value.id.getD "")
          (fun _ => Dispatch.GatewayOutcome.ok)
          ([exCampaign].filter fun c =>
            some c.media_id == exPayload.value.media_id &&
              c.status == .active) []).2)
    ∧ (Task.runCampaigns 100 (exPayload.value.id.getD "")
          (fun _ => Dispatch.GatewayOutcome.ok)
          ([exCampaign].filter fun c =>
            some c.media_id == exPayload.value.media_id &&
              c.status == .active) []).1.length =
        ([exCampaign].filter fun c =>
          some c.media_id == exPayload.value.media_id &&
            c.status == .active).length :=
  (spam_stage_exception_proceeds exPayload "boom" 100 [exCampaign]
      (fun _ => Dispatch.GatewayOutcome.ok) []).2 rfl (by decide) (by decide)

end Turnflow
